import Mathlib

/-!
Shallow embedding of the go-panos client library (package `panos`).

The Go code performs one HTTP round trip per operation and classifies the
parsed XML envelope by its `status` attribute.  The embedding makes the
wire explicit: each operation takes, for every request it may send, the
outcome of that send (transport error, unmarshal error, or the parsed
value), and returns the list of requests it actually sent together with
the Go function's return value.  Go's `error` results are modelled by
`GoErr`; a `nil` error is `none` / `Except.ok`.
-/

namespace Panos

/-- Session state, `PaloAlto` in panos.go. -/
structure PaloAlto where
  Host : String
  Key : String
  URI : String
  Platform : String
  Model : String
  Serial : String
  SoftwareVersion : String
  DeviceType : String
  Panorama : Bool
  deriving DecidableEq, Repr

/-- One HTTP request as built by the operations: verb, URI, and the query
parameters (a Go `map[string]string`, modelled as the association list in
the order the source writes it). -/
structure Request where
  verb : String
  uri : String
  query : List (String × String)
  deriving DecidableEq, Repr

/-- A Go `error` value as the operations produce them: a transport error
from `rested`, an `xml.Unmarshal` error, or an error message built with
`errors.New` / `fmt.Errorf`. -/
inductive GoErr where
  | transport (e : String)
  | parse (e : String)
  | message (s : String)
  deriving DecidableEq, Repr

/-- The outcome of one `r.Send` followed by `xml.Unmarshal` into
`requestError`: the transport failed, the body did not unmarshal, or an
envelope with its `status` and `code` attributes was parsed. -/
inductive SendResp where
  | transportErr (e : String)
  | unmarshalErr (e : String)
  | envelope (status code : String)
  deriving DecidableEq, Repr

/-- The outcome of one `r.Send` followed by `xml.Unmarshal` into a typed
record `α`.  The listing operations never inspect the transport error, so a
transport failure surfaces there as an unmarshal failure of the empty body. -/
inductive Unmarshalled (α : Type) where
  | unmarshalErr (e : String)
  | parsed (v : α)
  deriving DecidableEq, Repr

/-- The `errorCodes` table of panos.go, in source order. -/
def errorCodes : List (String × String) :=
  [("400", "Bad request - Returned when a required parameter is missing, an illegal parameter value is used"),
   ("403", "Forbidden - Returned for authentication or authorization errors including invalid key, insufficient admin access rights"),
   ("1", "Unknown command - The specific config or operational command is not recognized"),
   ("2", "Internal error - Check with technical support when seeing these errors"),
   ("3", "Internal error - Check with technical support when seeing these errors"),
   ("4", "Internal error - Check with technical support when seeing these errors"),
   ("5", "Internal error - Check with technical support when seeing these errors"),
   ("6", "Bad Xpath - The xpath specified in one or more attributes of the command is invalid. Check the API browser for proper xpath values"),
   ("7", "Object not present - Object specified by the xpath is not present. For example, entry[@name=’value’] where no object with name ‘value’ is present"),
   ("8", "Object not unique - For commands that operate on a single object, the specified object is not unique"),
   ("9", "Internal error - Check with technical support when seeing these errors"),
   ("10", "Reference count not zero - Object cannot be deleted as there are other objects that refer to it. For example, address object still in use in policy"),
   ("11", "Internal error - Check with technical support when seeing these errors"),
   ("12", "Invalid object - Xpath or element values provided are not complete"),
   ("13", "Operation failed - A descriptive error message is returned in the response"),
   ("14", "Operation not possible - Operation is not possible. For example, moving a rule up one position when it is already at the top"),
   ("15", "Operation denied - For example, Admin not allowed to delete own account, Running a command that is not allowed on a passive device"),
   ("16", "Unauthorized - The API role does not have access rights to run this query"),
   ("17", "Invalid command - Invalid command or parameters"),
   ("18", "Malformed command - The XML is malformed"),
   ("19", "Success - Command completed successfully"),
   ("20", "Success - Command completed successfully"),
   ("21", "Internal error - Check with technical support when seeing these errors"),
   ("22", "Session timed out - The session for this query timed out")]

/-- Go map indexing `errorCodes[code]`: the entry's text, or the string
zero value `""` when the code is not a key of the map. -/
def lookupErrorCode (code : String) : String :=
  ((errorCodes.find? fun kv => kv.1 == code).map Prod.snd).getD ""

/-- The error every operation returns for an envelope whose status is not
`"success"`: `fmt.Errorf("error code %s: %s", code, errorCodes[code])`. -/
def opError (code : String) : GoErr :=
  .message ("error code " ++ code ++ ": " ++ lookupErrorCode code)

/-- The response handling every mutating operation shares: return the
transport error if any, the unmarshal error if any, and otherwise translate
a non-`"success"` status into the coded operation error. -/
def checkSend : SendResp → Option GoErr
  | .transportErr e => some (.transport e)
  | .unmarshalErr e => some (.parse e)
  | .envelope status code => if status ≠ "success" then some (opError code) else none

/-- `strings.Contains` on the characters of the strings. -/
def containsSubstr (s sub : String) : Bool := decide (sub.data <:+: s.data)

/-- Parse result of the keygen call (`authKey` in panos.go). -/
structure authKey where
  Status : String
  Code : String
  Key : String
  deriving DecidableEq, Repr

/-- Parse result of `show system info` (`systemInfo` in panos.go). -/
structure systemInfo where
  Status : String
  Code : String
  Platform : String
  Model : String
  Serial : String
  SoftwareVersion : String
  deriving DecidableEq, Repr

/-- Parse result of `show panorama-status` (`panoramaStatus` in panos.go). -/
structure panoramaStatus where
  Status : String
  Code : String
  Data : String
  deriving DecidableEq, Repr

/-- The outcome of one send and unmarshal during `NewSession`, where the
transport error is checked before unmarshalling. -/
inductive Wire (α : Type) where
  | transportErr (e : String)
  | unmarshalErr (e : String)
  | parsed (v : α)
  deriving DecidableEq, Repr

/-- `NewSession` of panos.go over the outcomes of its three calls: keygen,
`show system info`, and `show panorama-status`. -/
def NewSession (host user passwd : String) (keyResp : Wire authKey)
    (infoResp : Wire systemInfo) (panResp : Wire panoramaStatus) :
    Except GoErr PaloAlto :=
  match keyResp with
  | .transportErr e => .error (.transport e)
  | .unmarshalErr e => .error (.parse e)
  | .parsed key =>
    if key.Status ≠ "success" then
      .error (.message ("error code " ++ key.Code ++ ": " ++ lookupErrorCode key.Code ++ " (keygen)"))
    else
      match infoResp with
      | .transportErr e => .error (.transport e)
      | .unmarshalErr e => .error (.parse e)
      | .parsed info =>
        if info.Status ≠ "success" then
          .error (.message ("error code " ++ info.Code ++ ": " ++ lookupErrorCode info.Code ++ " (show system info)"))
        else
          match panResp with
          | .transportErr e => .error (.transport e)
          | .unmarshalErr e => .error (.parse e)
          | .parsed pan =>
            .ok { Host := host
                  Key := key.Key
                  URI := "https://" ++ host ++ "/api/?"
                  Platform := info.Platform
                  Model := info.Model
                  Serial := info.Serial
                  SoftwareVersion := info.SoftwareVersion
                  DeviceType := if info.Platform == "m" then "panorama" else "panos"
                  Panorama := containsSubstr pan.Data ": yes" }

/-- `Address` of part_000: one address object entry. -/
structure Address where
  Name : String
  IPAddress : String
  IPRange : String
  FQDN : String
  Description : String
  deriving DecidableEq, Repr

/-- `AddressObjects` of part_000: the parsed address listing envelope. -/
structure AddressObjects where
  Status : String
  Code : String
  Addresses : List Address
  deriving DecidableEq, Repr

/-- `xmlAddressGroup` of part_000: one address-group entry as parsed. -/
structure xmlAddressGroup where
  Name : String
  Members : List String
  DynamicFilter : String
  Description : String
  deriving DecidableEq, Repr

/-- `xmlAddressGroups` of part_000: the parsed address-group listing envelope. -/
structure xmlAddressGroups where
  Status : String
  Code : String
  Groups : List xmlAddressGroup
  deriving DecidableEq, Repr

/-- `AddressGroup` of part_000: the processed address-group record.  The
source's field `Type` is written `Type'`, `Type` being a Lean keyword. -/
structure AddressGroup where
  Name : String
  Type' : String
  Members : List String
  DynamicFilter : String
  Description : String
  deriving DecidableEq, Repr

/-- `AddressGroups` of part_000. -/
structure AddressGroups where
  Groups : List AddressGroup
  deriving DecidableEq, Repr

/-- The body of the per-group loop of `AddressGroups`: type `"Dynamic"`
exactly when the dynamic filter is non-empty, filter trimmed. -/
def xmlAddressGroup.process (g : xmlAddressGroup) : AddressGroup :=
  { Name := g.Name
    Type' := if g.DynamicFilter ≠ "" then "Dynamic" else "Static"
    Members := g.Members
    DynamicFilter := g.DynamicFilter.trim
    Description := g.Description }

/-- The xpath `Addresses` selects from the session and optional device-group. -/
def addressesXpath (p : PaloAlto) (devicegroup : List String) : String :=
  if p.DeviceType == "panos" && p.Panorama == true then
    "/config/panorama//address"
  else if p.DeviceType == "panos" && p.Panorama == false then
    "/config/devices/entry[@name='localhost.localdomain']/vsys/entry[@name='vsys1']/address"
  else if p.DeviceType == "panorama" && decide (0 < devicegroup.length) then
    "/config/devices/entry[@name='localhost.localdomain']/device-group/entry[@name='" ++ devicegroup.headD "" ++ "']/address"
  else "/config/devices/entry//address"

/-- `Addresses` of part_000 over the outcome of its one listing request.
It checks the device-group precondition, unmarshals (the transport error is
never inspected), and classifies the envelope status. -/
def PaloAlto.Addresses (p : PaloAlto) (devicegroup : List String)
    (resp : Unmarshalled AddressObjects) : Except GoErr AddressObjects :=
  if p.DeviceType ≠ "panorama" ∧ 0 < devicegroup.length then
    .error (.message "you must be connected to a Panorama device when specifying a device-group")
  else
    match resp with
    | .unmarshalErr e => .error (.parse e)
    | .parsed addrs =>
      if addrs.Status ≠ "success" then .error (opError addrs.Code)
      else .ok addrs

/-- `AddressGroups` of part_000 over the outcome of its listing request. -/
def PaloAlto.AddressGroups (p : PaloAlto) (devicegroup : List String)
    (resp : Unmarshalled xmlAddressGroups) : Except GoErr AddressGroups :=
  if p.DeviceType ≠ "panorama" ∧ 0 < devicegroup.length then
    .error (.message "you must be connected to a Panorama device when specifying a device-group")
  else
    match resp with
    | .unmarshalErr e => .error (.parse e)
    | .parsed parsedGroups =>
      if parsedGroups.Status ≠ "success" then .error (opError parsedGroups.Code)
      else .ok ⟨parsedGroups.Groups.map xmlAddressGroup.process⟩

/-- Modelled from the spec: the service-object record of the repository's
service listing (its file is not under src/); `ApplyTag` and `RemoveTag`
read only its name. -/
structure Service where
  Name : String
  deriving DecidableEq, Repr

/-- Modelled from the spec: the parsed service listing envelope, mirroring
`AddressObjects` (`sObj.Services` is how the tag operations read it). -/
structure Services where
  Status : String
  Code : String
  Services : List Service
  deriving DecidableEq, Repr

/-- Modelled from the spec: one service-group entry; the tag operations
read only its name. -/
structure ServiceGroup where
  Name : String
  deriving DecidableEq, Repr

/-- Modelled from the spec: the parsed service-group listing envelope
(`sgObj.Groups` is how the tag operations read it). -/
structure ServiceGroups where
  Status : String
  Code : String
  Groups : List ServiceGroup
  deriving DecidableEq, Repr

/-- Modelled from the spec: the `Services` listing operation (its file is
not under src/), following the uniform listing pattern of §4.4: unmarshal
the envelope and classify its status; a nil record is returned with every
error. -/
def PaloAlto.Services (p : PaloAlto) (resp : Unmarshalled Services) :
    Except GoErr Services :=
  match resp with
  | .unmarshalErr e => .error (.parse e)
  | .parsed svcs =>
    if svcs.Status ≠ "success" then .error (opError svcs.Code)
    else .ok svcs

/-- Modelled from the spec: the `ServiceGroups` listing operation (its file
is not under src/), following the uniform listing pattern of §4.4. -/
def PaloAlto.ServiceGroups (p : PaloAlto) (resp : Unmarshalled ServiceGroups) :
    Except GoErr ServiceGroups :=
  match resp with
  | .unmarshalErr e => .error (.parse e)
  | .parsed sgs =>
    if sgs.Status ≠ "success" then .error (opError sgs.Code)
    else .ok sgs

/-- The `tagColors` table of panos.go: color name to `colorN` code. -/
def tagColors : List (String × String) :=
  [("Red", "color1"), ("Green", "color2"), ("Blue", "color3"), ("Yellow", "color4"),
   ("Copper", "color5"), ("Orange", "color6"), ("Purple", "color7"), ("Gray", "color8"),
   ("Light Green", "color9"), ("Cyan", "color10"), ("Light Gray", "color11"),
   ("Blue Gray", "color12"), ("Lime", "color13"), ("Black", "color14"),
   ("Gold", "color15"), ("Brown", "color16")]

/-- `xmlTag` of panos.go: one tag entry as parsed. -/
structure xmlTag where
  Name : String
  Color : String
  Comments : String
  deriving DecidableEq, Repr

/-- `xmlTags` of panos.go: the parsed tag listing envelope. -/
structure xmlTags where
  Status : String
  Code : String
  Tags : List xmlTag
  deriving DecidableEq, Repr

/-- `Tag` of panos.go: the processed tag record. -/
structure Tag where
  Name : String
  Color : String
  Comments : String
  deriving DecidableEq, Repr

/-- `Tags` of panos.go. -/
structure Tags where
  Tags : List Tag
  deriving DecidableEq, Repr

/-- The inner loop of `Tags`: `for k, v := range tagColors { if t.Color == v
{ tcolor = k } }`.  The color codes of the table are pairwise distinct, so at
most one entry matches and the map's iteration order does not matter: the
loop leaves `tcolor` unchanged exactly when no entry's code equals the
parsed color. -/
def tagColorName (color : String) : Option String :=
  (tagColors.find? fun kv => kv.2 == color).map Prod.fst

/-- The per-tag loop of `Tags`.  `tcolor` is declared once outside the loop,
so a color code missing from the table leaves the value resolved for an
earlier tag in place. -/
def tagsLoop : List xmlTag → String → List Tag
  | [], _ => []
  | t :: rest, tcolor =>
    let tcolor := (tagColorName t.Color).getD tcolor
    { Name := t.Name, Color := tcolor, Comments := t.Comments } :: tagsLoop rest tcolor

/-- `Tags` of panos.go over the outcome of its listing request: classify the
envelope, then run the per-tag loop with `tcolor` starting at Go's string
zero value `""`. -/
def PaloAlto.Tags (p : PaloAlto) (resp : Unmarshalled xmlTags) : Except GoErr Tags :=
  match resp with
  | .unmarshalErr e => .error (.parse e)
  | .parsed parsedTags =>
    if parsedTags.Status ≠ "success" then .error (opError parsedTags.Code)
    else .ok ⟨tagsLoop parsedTags.Tags ""⟩

/-- `CreateAddress` of part_000: build the element body from the address
kind, pick the xpath from the device type, refuse a Panorama session with
no device-group before sending, and otherwise send one `set` request and
classify its response.  The result pairs the requests actually sent with
the returned Go error. -/
def PaloAlto.CreateAddress (p : PaloAlto) (name addrtype address description : String)
    (devicegroup : List String) (resp : SendResp) : List Request × Option GoErr :=
  let xmlBody :=
    if addrtype == "ip" then "<ip-netmask>" ++ address ++ "</ip-netmask>"
    else if addrtype == "range" then "<ip-range>" ++ address ++ "</ip-range>"
    else if addrtype == "fqdn" then "<fqdn>" ++ address ++ "</fqdn>"
    else ""
  let xmlBody :=
    if description ≠ "" then xmlBody ++ "<description>" ++ description ++ "</description>"
    else xmlBody
  let xpath :=
    if p.DeviceType == "panos" then
      "/config/devices/entry[@name='localhost.localdomain']/vsys/entry[@name='vsys1']/address/entry[@name='" ++ name ++ "']"
    else if p.DeviceType == "panorama" && decide (0 < devicegroup.length) then
      "/config/devices/entry[@name='localhost.localdomain']/device-group/entry[@name='" ++ devicegroup.headD "" ++ "']/address/entry[@name='" ++ name ++ "']"
    else ""
  if p.DeviceType = "panorama" ∧ devicegroup.length ≤ 0 then
    ([], some (.message "you must specify a device-group when connected to a Panorama device"))
  else
    ([⟨"post", p.URI, [("type", "config"), ("action", "set"), ("xpath", xpath),
        ("element", xmlBody), ("key", p.Key)]⟩],
     checkSend resp)

/-- `DeleteAddress` of part_000: pick the xpath from the device type, refuse
a Panorama session with no device-group before sending, and otherwise send
one `delete` request and classify its response. -/
def PaloAlto.DeleteAddress (p : PaloAlto) (name : String) (devicegroup : List String)
    (resp : SendResp) : List Request × Option GoErr :=
  let xpath :=
    if p.DeviceType == "panos" then
      "/config/devices/entry[@name='localhost.localdomain']/vsys/entry[@name='vsys1']/address/entry[@name='" ++ name ++ "']"
    else if p.DeviceType == "panorama" && decide (0 < devicegroup.length) then
      "/config/devices/entry[@name='localhost.localdomain']/device-group/entry[@name='" ++ devicegroup.headD "" ++ "']/address/entry[@name='" ++ name ++ "']"
    else ""
  if p.DeviceType = "panorama" ∧ devicegroup.length ≤ 0 then
    ([], some (.message "you must specify a device-group when connected to a Panorama device"))
  else
    ([⟨"get", p.URI, [("type", "config"), ("action", "delete"), ("xpath", xpath),
        ("key", p.Key)]⟩],
     checkSend resp)

/-- `Commit` of panos.go: one fire-and-forget commit request. -/
def PaloAlto.Commit (p : PaloAlto) (resp : SendResp) : List Request × Option GoErr :=
  ([⟨"get", p.URI, [("type", "commit"), ("cmd", "<commit></commit>"), ("key", p.Key)]⟩],
   checkSend resp)

/-- The four object categories `ApplyTag` and `RemoveTag` search, in the
order their loops appear in the source. -/
inductive TagCategory where
  | address
  | addressGroup
  | service
  | serviceGroup
  deriving DecidableEq, Repr

/-- The path segment of a category inside the four per-category xpath
literals of `ApplyTag` and `RemoveTag`. -/
def TagCategory.segment : TagCategory → String
  | .address => "address"
  | .addressGroup => "address-group"
  | .service => "service"
  | .serviceGroup => "service-group"

/-- The `ApplyTag` xpath literal of the `panos` branch for a category. -/
def applyTagXpathPanos (cat : TagCategory) (object : String) : String :=
  "/config/devices/entry[@name='localhost.localdomain']/vsys/entry[@name='vsys1']/"
    ++ cat.segment ++ "/entry[@name='" ++ object ++ "']/tag"

/-- The `ApplyTag` xpath literal of the `panorama` branch for a category. -/
def applyTagXpathPanorama (cat : TagCategory) (dg object : String) : String :=
  "/config/devices/entry[@name='localhost.localdomain']/device-group/entry[@name='"
    ++ dg ++ "']/" ++ cat.segment ++ "/entry[@name='" ++ object ++ "']/tag"

/-- The `RemoveTag` xpath literal of the `panos` branch for a category. -/
def removeTagXpathPanos (cat : TagCategory) (object tag : String) : String :=
  applyTagXpathPanos cat object ++ "/member[text()='" ++ tag ++ "']"

/-- The `RemoveTag` xpath literal of the `panorama` branch for a category. -/
def removeTagXpathPanorama (cat : TagCategory) (dg object tag : String) : String :=
  applyTagXpathPanorama cat dg object ++ "/member[text()='" ++ tag ++ "']"

/-- The `<tag>` element body `ApplyTag` builds from the comma-separated tag
list, members trimmed. -/
def applyTagBody (tag : String) : String :=
  "<tag>" ++ String.join ((tag.splitOn ",").map fun t => "<member>" ++ t.trim ++ "</member>")
    ++ "</tag>"

/-- The query `ApplyTag` builds before the loops (`xpath` is set inside the
matching branch). -/
def applyTagQuery (p : PaloAlto) (tag : String) : List (String × String) :=
  [("type", "config"), ("action", "edit"), ("element", applyTagBody tag), ("key", p.Key)]

/-- The query `RemoveTag` builds before the loops. -/
def removeTagQuery (p : PaloAlto) : List (String × String) :=
  [("type", "config"), ("action", "delete"), ("key", p.Key)]

/-- The outcome of `ApplyTag` or `RemoveTag`: either the nil-pointer
dereference fault of ranging over a nil listing result, or a normal return
with the mutation requests sent and the Go error value. -/
inductive TagResult where
  | nilPanic
  | done (sent : List Request) (err : Option GoErr)
  deriving DecidableEq, Repr

/-- The branch body both tag operations run when a listing entry's name
equals `object`: a `panos` session sends with the panos xpath, a `panorama`
session with a device-group sends with the panorama xpath, a `panorama`
session without one returns the precondition error, and any other device
type falls through to the next entry (`none`). -/
def tagMatchStep (p : PaloAlto) (devicegroup : List String)
    (panosXpath panoramaXpath : String) (query : List (String × String))
    (resp : SendResp) : Option TagResult :=
  if p.DeviceType = "panos" then
    some (.done [⟨"post", p.URI, query ++ [("xpath", panosXpath)]⟩] (checkSend resp))
  else if p.DeviceType = "panorama" ∧ 0 < devicegroup.length then
    some (.done [⟨"post", p.URI, query ++ [("xpath", panoramaXpath)]⟩] (checkSend resp))
  else if p.DeviceType = "panorama" ∧ devicegroup.length ≤ 0 then
    some (.done [] (some (.message "you must specify a device-group when connected to a Panorama device")))
  else none

/-- One per-category loop of `ApplyTag` or `RemoveTag` over the listed
names: the first entry equal to `object` runs the branch body; when the
body falls through (device type neither `panos` nor `panorama`) the loop
continues. -/
def tagEntryLoop (p : PaloAlto) (devicegroup : List String) (object : String)
    (panosXpath panoramaXpath : String) (query : List (String × String))
    (resp : SendResp) : List String → Option TagResult
  | [] => none
  | n :: rest =>
    if object = n then
      match tagMatchStep p devicegroup panosXpath panoramaXpath query resp with
      | some r => some r
      | none => tagEntryLoop p devicegroup object panosXpath panoramaXpath query resp rest
    else tagEntryLoop p devicegroup object panosXpath panoramaXpath query resp rest

/-- `ApplyTag` of panos.go over the outcomes of its four listing calls and
of the single mutation it may send.  The four listing calls all happen at
the start with their errors discarded (`adObj, _ := p.Addresses()`); a
failed listing leaves a nil pointer that faults when its loop is reached. -/
def PaloAlto.ApplyTag (p : PaloAlto) (tag object : String) (devicegroup : List String)
    (adResp : Unmarshalled AddressObjects) (agResp : Unmarshalled xmlAddressGroups)
    (sResp : Unmarshalled Panos.Services) (sgResp : Unmarshalled Panos.ServiceGroups)
    (mutResp : SendResp) : TagResult :=
  let dg := devicegroup.headD ""
  let query := applyTagQuery p tag
  match p.Addresses [] adResp with
  | .error _ => .nilPanic
  | .ok adObj =>
    match tagEntryLoop p devicegroup object (applyTagXpathPanos .address object)
        (applyTagXpathPanorama .address dg object) query mutResp
        (adObj.Addresses.map Address.Name) with
    | some r => r
    | none =>
      match p.AddressGroups [] agResp with
      | .error _ => .nilPanic
      | .ok agObj =>
        match tagEntryLoop p devicegroup object (applyTagXpathPanos .addressGroup object)
            (applyTagXpathPanorama .addressGroup dg object) query mutResp
            (agObj.Groups.map AddressGroup.Name) with
        | some r => r
        | none =>
          match p.Services sResp with
          | .error _ => .nilPanic
          | .ok sObj =>
            match tagEntryLoop p devicegroup object (applyTagXpathPanos .service object)
                (applyTagXpathPanorama .service dg object) query mutResp
                (sObj.Services.map Service.Name) with
            | some r => r
            | none =>
              match p.ServiceGroups sgResp with
              | .error _ => .nilPanic
              | .ok sgObj =>
                match tagEntryLoop p devicegroup object (applyTagXpathPanos .serviceGroup object)
                    (applyTagXpathPanorama .serviceGroup dg object) query mutResp
                    (sgObj.Groups.map ServiceGroup.Name) with
                | some r => r
                | none => .done [] none

/-- `RemoveTag` of panos.go, with the same structure as `ApplyTag`: a
`delete` query and the member-selecting xpaths. -/
def PaloAlto.RemoveTag (p : PaloAlto) (tag object : String) (devicegroup : List String)
    (adResp : Unmarshalled AddressObjects) (agResp : Unmarshalled xmlAddressGroups)
    (sResp : Unmarshalled Panos.Services) (sgResp : Unmarshalled Panos.ServiceGroups)
    (mutResp : SendResp) : TagResult :=
  let dg := devicegroup.headD ""
  let query := removeTagQuery p
  match p.Addresses [] adResp with
  | .error _ => .nilPanic
  | .ok adObj =>
    match tagEntryLoop p devicegroup object (removeTagXpathPanos .address object tag)
        (removeTagXpathPanorama .address dg object tag) query mutResp
        (adObj.Addresses.map Address.Name) with
    | some r => r
    | none =>
      match p.AddressGroups [] agResp with
      | .error _ => .nilPanic
      | .ok agObj =>
        match tagEntryLoop p devicegroup object (removeTagXpathPanos .addressGroup object tag)
            (removeTagXpathPanorama .addressGroup dg object tag) query mutResp
            (agObj.Groups.map AddressGroup.Name) with
        | some r => r
        | none =>
          match p.Services sResp with
          | .error _ => .nilPanic
          | .ok sObj =>
            match tagEntryLoop p devicegroup object (removeTagXpathPanos .service object tag)
                (removeTagXpathPanorama .service dg object tag) query mutResp
                (sObj.Services.map Service.Name) with
            | some r => r
            | none =>
              match p.ServiceGroups sgResp with
              | .error _ => .nilPanic
              | .ok sgObj =>
                match tagEntryLoop p devicegroup object (removeTagXpathPanos .serviceGroup object tag)
                    (removeTagXpathPanorama .serviceGroup dg object tag) query mutResp
                    (sgObj.Groups.map ServiceGroup.Name) with
                | some r => r
                | none => .done [] none

/-! ### Helper lemmas and concrete sessions -/

/-- A standalone firewall session as `NewSession` builds one for a
platform family other than `"m"`. -/
def pStandalone : PaloAlto :=
  { Host := "fw1", Key := "k", URI := "https://fw1/api/?", Platform := "vm",
    Model := "PA-VM", Serial := "001", SoftwareVersion := "8.0.0",
    DeviceType := "panos", Panorama := false }

/-- A Panorama session as `NewSession` builds one for platform family `"m"`. -/
def pPanorama : PaloAlto :=
  { Host := "pan1", Key := "k", URI := "https://pan1/api/?", Platform := "m",
    Model := "M-100", Serial := "002", SoftwareVersion := "8.0.0",
    DeviceType := "panorama", Panorama := false }

theorem Addresses_parsed_success (p : PaloAlto) (adv : AddressObjects)
    (h : adv.Status = "success") : p.Addresses [] (.parsed adv) = .ok adv := by
  simp [PaloAlto.Addresses, h]

theorem AddressGroups_parsed_success (p : PaloAlto) (agv : xmlAddressGroups)
    (h : agv.Status = "success") :
    p.AddressGroups [] (.parsed agv) = .ok ⟨agv.Groups.map xmlAddressGroup.process⟩ := by
  simp [PaloAlto.AddressGroups, h]

theorem Services_parsed_success (p : PaloAlto) (sv : Services)
    (h : sv.Status = "success") : p.Services (.parsed sv) = .ok sv := by
  simp [PaloAlto.Services, h]

theorem ServiceGroups_parsed_success (p : PaloAlto) (sgv : ServiceGroups)
    (h : sgv.Status = "success") : p.ServiceGroups (.parsed sgv) = .ok sgv := by
  simp [PaloAlto.ServiceGroups, h]

/-- The request a matching tag branch sends: the operation's query with the
xpath of the session's device type appended. -/
def tagMutationRequest (p : PaloAlto) (query : List (String × String))
    (panosXpath panoramaXpath : String) : Request :=
  ⟨"post", p.URI, query ++ [("xpath", if p.DeviceType = "panos" then panosXpath else panoramaXpath)]⟩

theorem tagMatchStep_eq_of_dev (p : PaloAlto) (dg : List String) (px py : String)
    (q : List (String × String)) (r : SendResp)
    (hdev : p.DeviceType = "panos" ∨ (p.DeviceType = "panorama" ∧ 0 < dg.length)) :
    tagMatchStep p dg px py q r = some (.done [tagMutationRequest p q px py] (checkSend r)) := by
  rcases hdev with h | ⟨h, hdg⟩
  · simp [tagMatchStep, tagMutationRequest, h]
  · simp [tagMatchStep, tagMutationRequest, h, hdg]

theorem tagMatchStep_ne_nilPanic (p : PaloAlto) (dg : List String) (px py : String)
    (q : List (String × String)) (r : SendResp) :
    tagMatchStep p dg px py q r ≠ some .nilPanic := by
  unfold tagMatchStep
  split
  · simp
  · split
    · simp
    · split <;> simp

/-- The per-category loop, summarised: the branch body runs exactly when the
object's name appears among the listed names (every matching entry runs the
same body, so the first match decides). -/
theorem tagEntryLoop_eq (p : PaloAlto) (devicegroup : List String) (object : String)
    (px py : String) (q : List (String × String)) (r : SendResp) (names : List String) :
    tagEntryLoop p devicegroup object px py q r names =
      if object ∈ names then tagMatchStep p devicegroup px py q r else none := by
  induction names with
  | nil => simp [tagEntryLoop]
  | cons n rest ih =>
    by_cases h : object = n
    · subst h
      simp only [tagEntryLoop, if_pos rfl, List.mem_cons, true_or, if_true]
      cases hs : tagMatchStep p devicegroup px py q r with
      | none => simp [ih, hs]
      | some t => rfl
    · simp only [tagEntryLoop, if_neg h, ih, List.mem_cons]
      simp [h]

theorem tagEntryLoop_ne_nilPanic (p : PaloAlto) (devicegroup : List String)
    (object : String) (px py : String) (q : List (String × String)) (r : SendResp)
    (names : List String) (t : TagResult)
    (h : tagEntryLoop p devicegroup object px py q r names = some t) : t ≠ .nilPanic := by
  rw [tagEntryLoop_eq] at h
  intro ht
  subst ht
  by_cases hm : object ∈ names
  · rw [if_pos hm] at h
    exact tagMatchStep_ne_nilPanic p devicegroup px py q r h
  · rw [if_neg hm] at h
    exact Option.noConfusion h

/-! ### C3, C4, C5 -/

/-- C3: `CreateAddress` on a Panorama session with no device-group argument
returns the precondition error and sends no HTTP request at all (the sent
request list is empty). -/
theorem CreateAddress_panorama_no_devicegroup (p : PaloAlto)
    (name addrtype address description : String) (resp : SendResp)
    (h : p.DeviceType = "panorama") :
    p.CreateAddress name addrtype address description [] resp =
      ([], some (.message "you must specify a device-group when connected to a Panorama device")) := by
  simp [PaloAlto.CreateAddress, h]

/-- Witness for C3 at a concrete Panorama session. -/
theorem CreateAddress_panorama_no_devicegroup_witness :
    pPanorama.CreateAddress "srv1" "ip" "10.0.0.5/32" "" [] (.envelope "success" "19") =
      ([], some (.message "you must specify a device-group when connected to a Panorama device")) :=
  CreateAddress_panorama_no_devicegroup pPanorama "srv1" "ip" "10.0.0.5/32" "" _ rfl

/-- C4: `NewSession` populates the session from the parsed system info; the
device type is `"panorama"` exactly when the reported platform family is
`"m"`, and `"panos"` for every other platform family. -/
theorem NewSession_classifies_device_type (host user passwd : String) (k : authKey)
    (info : systemInfo) (pan : panoramaStatus)
    (hk : k.Status = "success") (hi : info.Status = "success") :
    NewSession host user passwd (.parsed k) (.parsed info) (.parsed pan) =
      .ok { Host := host, Key := k.Key, URI := "https://" ++ host ++ "/api/?",
            Platform := info.Platform, Model := info.Model, Serial := info.Serial,
            SoftwareVersion := info.SoftwareVersion,
            DeviceType := if info.Platform = "m" then "panorama" else "panos",
            Panorama := containsSubstr pan.Data ": yes" } := by
  simp [NewSession, hk, hi]

/-- Witness for C4: platform family `"vm"` yields device type `"panos"`,
platform family `"m"` yields `"panorama"`. -/
theorem NewSession_classifies_device_type_witness :
    NewSession "fw1" "u" "pw" (.parsed ⟨"success", "", "k"⟩)
        (.parsed ⟨"success", "", "vm", "PA-VM", "001", "8.0.0"⟩)
        (.parsed ⟨"success", "", "no"⟩) =
      .ok { Host := "fw1", Key := "k", URI := "https://fw1/api/?", Platform := "vm",
            Model := "PA-VM", Serial := "001", SoftwareVersion := "8.0.0",
            DeviceType := "panos", Panorama := false } ∧
    NewSession "pan1" "u" "pw" (.parsed ⟨"success", "", "k"⟩)
        (.parsed ⟨"success", "", "m", "M-100", "002", "8.0.0"⟩)
        (.parsed ⟨"success", "", "no"⟩) =
      .ok { Host := "pan1", Key := "k", URI := "https://pan1/api/?", Platform := "m",
            Model := "M-100", Serial := "002", SoftwareVersion := "8.0.0",
            DeviceType := "panorama", Panorama := false } :=
  ⟨NewSession_classifies_device_type "fw1" "u" "pw" _ _ _ rfl rfl,
   NewSession_classifies_device_type "pan1" "u" "pw" _ _ _ rfl rfl⟩

/-- C5: on a standalone (`panos`) session,
`CreateAddress("srv1","ip","10.0.0.5/32","")` sends one `set` request whose
element body is `<ip-netmask>10.0.0.5/32</ip-netmask>` and whose xpath ends
in `/address/entry[@name='srv1']` (the xpath is written as a concatenation
exhibiting that suffix). -/
theorem CreateAddress_srv1_standalone (p : PaloAlto) (resp : SendResp)
    (h : p.DeviceType = "panos") :
    p.CreateAddress "srv1" "ip" "10.0.0.5/32" "" [] resp =
      ([⟨"post", p.URI,
          [("type", "config"), ("action", "set"),
           ("xpath", "/config/devices/entry[@name='localhost.localdomain']/vsys/entry[@name='vsys1']"
              ++ "/address/entry[@name='srv1']"),
           ("element", "<ip-netmask>10.0.0.5/32</ip-netmask>"), ("key", p.Key)]⟩],
       checkSend resp)
    ∧ ("/address/entry[@name='srv1']").data <:+
        ("/config/devices/entry[@name='localhost.localdomain']/vsys/entry[@name='vsys1']"
          ++ "/address/entry[@name='srv1']").data := by
  refine ⟨by simp [PaloAlto.CreateAddress, h], ?_⟩
  rw [String.data_append]
  exact List.suffix_append _ _

/-- Witness for C5 at the concrete standalone session. -/
theorem CreateAddress_srv1_standalone_witness :
    pStandalone.CreateAddress "srv1" "ip" "10.0.0.5/32" "" [] (.envelope "success" "19") =
      ([⟨"post", pStandalone.URI,
          [("type", "config"), ("action", "set"),
           ("xpath", "/config/devices/entry[@name='localhost.localdomain']/vsys/entry[@name='vsys1']"
              ++ "/address/entry[@name='srv1']"),
           ("element", "<ip-netmask>10.0.0.5/32</ip-netmask>"), ("key", pStandalone.Key)]⟩],
       checkSend (.envelope "success" "19"))
    ∧ ("/address/entry[@name='srv1']").data <:+
        ("/config/devices/entry[@name='localhost.localdomain']/vsys/entry[@name='vsys1']"
          ++ "/address/entry[@name='srv1']").data :=
  CreateAddress_srv1_standalone pStandalone _ rfl

/-! ### C1, C2 -/

/-- C1: for every operation that reaches its send, a successfully parsed
envelope yields no error exactly when its status is `"success"`, and any
other status yields the operation error built from exactly the envelope's
code attribute; the mutating operations all classify through `checkSend`,
and a listing classifies the same way. -/
theorem envelope_status_decides_error :
    (∀ st cd, checkSend (.envelope st cd) = if st = "success" then none else some (opError cd))
    ∧ (∀ cd, opError cd = .message ("error code " ++ cd ++ ": " ++ lookupErrorCode cd))
    ∧ (∀ (p : PaloAlto) (resp : SendResp), (p.Commit resp).2 = checkSend resp)
    ∧ (∀ (p : PaloAlto) (name addrtype address description : String)
          (devicegroup : List String) (resp : SendResp),
        ¬(p.DeviceType = "panorama" ∧ devicegroup.length ≤ 0) →
        (p.CreateAddress name addrtype address description devicegroup resp).2 = checkSend resp)
    ∧ (∀ (p : PaloAlto) (name : String) (devicegroup : List String) (resp : SendResp),
        ¬(p.DeviceType = "panorama" ∧ devicegroup.length ≤ 0) →
        (p.DeleteAddress name devicegroup resp).2 = checkSend resp)
    ∧ (∀ (p : PaloAlto) (adv : AddressObjects), p.Addresses [] (.parsed adv) =
        if adv.Status = "success" then .ok adv else .error (opError adv.Code)) := by
  refine ⟨fun st cd => ?_, fun cd => rfl, fun p resp => rfl, ?_, ?_, ?_⟩
  · by_cases h : st = "success" <;> simp [checkSend, h]
  · intro p name addrtype address description devicegroup resp h
    have h' : ¬(p.DeviceType = "panorama" ∧ devicegroup = []) := by
      simpa [List.length_eq_zero] using h
    simp [PaloAlto.CreateAddress, h']
  · intro p name devicegroup resp h
    have h' : ¬(p.DeviceType = "panorama" ∧ devicegroup = []) := by
      simpa [List.length_eq_zero] using h
    simp [PaloAlto.DeleteAddress, h']
  · intro p adv
    by_cases h : adv.Status = "success" <;> simp [PaloAlto.Addresses, h]

/-- Witness for C1: a concrete commit envelope with status `"success"`
returns no error, and one with another status returns the coded error. -/
theorem envelope_status_decides_error_witness :
    (pStandalone.Commit (.envelope "success" "19")).2 = checkSend (.envelope "success" "19")
    ∧ (pStandalone.CreateAddress "a" "ip" "10.0.0.1" "" [] (.envelope "error" "400")).2 =
        checkSend (.envelope "error" "400") :=
  ⟨envelope_status_decides_error.2.2.1 pStandalone (.envelope "success" "19"),
   envelope_status_decides_error.2.2.2.1 pStandalone "a" "ip" "10.0.0.1" "" []
     (.envelope "error" "400") (by decide)⟩

/-- The text of a Go error value. -/
def GoErr.text : GoErr → String
  | .transport e => e
  | .parse e => e
  | .message s => s

set_option maxRecDepth 8000 in
/-- C2: a non-`"success"` envelope on a delete yields the operation error
whose message carries the fixed table's text for the envelope's code; the
code-7 message contains `"Object not present"`; and a code that is no key
of the table surfaces the raw code with the generic `error code _:` text. -/
theorem operation_error_messages :
    (∀ (p : PaloAlto) (name : String) (devicegroup : List String) (st cd : String),
        ¬(p.DeviceType = "panorama" ∧ devicegroup.length ≤ 0) → st ≠ "success" →
        (p.DeleteAddress name devicegroup (.envelope st cd)).2 = some (opError cd))
    ∧ (∀ kv ∈ errorCodes, opError kv.1 = .message ("error code " ++ kv.1 ++ ": " ++ kv.2))
    ∧ containsSubstr (opError "7").text "Object not present" = true
    ∧ (∀ cd, (∀ kv ∈ errorCodes, kv.1 ≠ cd) →
        opError cd = .message ("error code " ++ cd ++ ": ")) := by
  refine ⟨?_, by decide, by decide, ?_⟩
  · intro p name devicegroup st cd h hst
    have h' : ¬(p.DeviceType = "panorama" ∧ devicegroup = []) := by
      simpa [List.length_eq_zero] using h
    simp [PaloAlto.DeleteAddress, h', checkSend, hst]
  · intro cd h
    have : errorCodes.find? (fun kv => kv.1 == cd) = none := by
      rw [List.find?_eq_none]
      intro kv hkv
      simpa using h kv hkv
    simp [opError, lookupErrorCode, this]

/-- Witness for C2: the delete scenario with envelope
`status="error" code="7"` at the concrete standalone session. -/
theorem operation_error_messages_witness :
    (pStandalone.DeleteAddress "srv1" [] (.envelope "error" "7")).2 = some (opError "7") :=
  operation_error_messages.1 pStandalone "srv1" [] "error" "7" (by decide) (by decide)

/-! ### C9 -/

/-- The color name the per-tag loop of `Tags` has resolved after scanning a
list of parsed tags, starting from the string zero value `""`: the name for
the most recent tag whose color code is in the table, or the start value if
none matched. -/
def lastResolvedColor (ts : List xmlTag) (tcolor : String) : String :=
  ts.foldl (fun acc t => (tagColorName t.Color).getD acc) tcolor

theorem tagsLoop_length (ts : List xmlTag) (tcolor : String) :
    (tagsLoop ts tcolor).length = ts.length := by
  induction ts generalizing tcolor with
  | nil => rfl
  | cons t rest ih => simp [tagsLoop, ih]

theorem tagsLoop_color_of_unknown (ts : List xmlTag) (tcolor : String) (i : Nat)
    (hi : i < ts.length) (hmiss : tagColorName ts[i].Color = none) :
    (tagsLoop ts tcolor)[i]?.map Tag.Color = some (lastResolvedColor (ts.take i) tcolor) := by
  induction ts generalizing tcolor i with
  | nil => exact absurd hi (by simp)
  | cons t rest ih =>
    cases i with
    | zero =>
      simp only [List.getElem_cons_zero] at hmiss
      simp [tagsLoop, lastResolvedColor, hmiss]
    | succ j =>
      simp only [List.getElem_cons_succ] at hmiss
      have hj : j < rest.length := by simpa using hi
      simp only [tagsLoop, List.getElem?_cons_succ, List.take_succ_cons, lastResolvedColor,
        List.foldl_cons]
      exact ih ((tagColorName t.Color).getD tcolor) j hj hmiss

/-- C9: in `Tags`, a parsed tag whose color code is not in the 16-entry
color table receives the color name resolved for the most recent preceding
tag whose code was in the table (the string zero value `""` when no
preceding tag matched), because `tcolor` is declared outside the per-tag
loop and persists across iterations. -/
theorem Tags_unknown_color_inherits (p : PaloAlto) (pt : xmlTags) (i : Nat)
    (hst : pt.Status = "success") (hi : i < pt.Tags.length)
    (hmiss : tagColorName pt.Tags[i].Color = none) :
    ∃ tags, p.Tags (.parsed pt) = .ok tags
      ∧ tags.Tags[i]?.map Tag.Color = some (lastResolvedColor (pt.Tags.take i) "") := by
  refine ⟨⟨tagsLoop pt.Tags ""⟩, by simp [PaloAlto.Tags, hst], ?_⟩
  exact tagsLoop_color_of_unknown pt.Tags "" i hi hmiss

/-- Witness for C9: a tag with the unknown code `"color99"` after one whose
code `"color3"` resolves to `"Blue"` is itself reported `"Blue"`. -/
theorem Tags_unknown_color_inherits_witness :
    ∃ tags, pStandalone.Tags (.parsed ⟨"success", "19",
        [⟨"t1", "color3", ""⟩, ⟨"t2", "color99", ""⟩]⟩) = .ok tags
      ∧ tags.Tags[1]?.map Tag.Color =
          some (lastResolvedColor ([⟨"t1", "color3", ""⟩, ⟨"t2", "color99", ""⟩].take 1) "") :=
  Tags_unknown_color_inherits pStandalone ⟨"success", "19",
    [⟨"t1", "color3", ""⟩, ⟨"t2", "color99", ""⟩]⟩ 1 rfl (by decide) (by decide)

/-! ### C6, C8 -/

/-- The earliest category of the fixed search order (address, address-group,
service, service-group) whose listed names contain the object. -/
def firstTagCategory (object : String) (ad ag s sg : List String) : Option TagCategory :=
  if object ∈ ad then some .address
  else if object ∈ ag then some .addressGroup
  else if object ∈ s then some .service
  else if object ∈ sg then some .serviceGroup
  else none

/-- C6: on a session that mutates (standalone, or Panorama with a
device-group), `ApplyTag` applies the tag to the first category of the fixed
order address, address-group, service, service-group whose listing contains
an entry named `object`, sending exactly that one mutation and returning its
outcome; a name present in several categories resolves to the earliest, and
a name present in none yields no mutation. -/
theorem ApplyTag_first_category_wins
    (p : PaloAlto) (tag object : String) (devicegroup : List String)
    (adv : AddressObjects) (agv : xmlAddressGroups) (sv : Services) (sgv : ServiceGroups)
    (mutResp : SendResp)
    (had : adv.Status = "success") (hag : agv.Status = "success")
    (hsv : sv.Status = "success") (hsg : sgv.Status = "success")
    (hdev : p.DeviceType = "panos" ∨ (p.DeviceType = "panorama" ∧ 0 < devicegroup.length)) :
    p.ApplyTag tag object devicegroup (.parsed adv) (.parsed agv) (.parsed sv) (.parsed sgv)
        mutResp =
      match firstTagCategory object (adv.Addresses.map Address.Name)
          (agv.Groups.map xmlAddressGroup.Name)
          (sv.Services.map Service.Name) (sgv.Groups.map ServiceGroup.Name) with
      | some cat =>
        .done [tagMutationRequest p (applyTagQuery p tag) (applyTagXpathPanos cat object)
            (applyTagXpathPanorama cat (devicegroup.headD "") object)] (checkSend mutResp)
      | none => .done [] none := by
  simp only [PaloAlto.ApplyTag, Addresses_parsed_success p adv had,
    AddressGroups_parsed_success p agv hag, Services_parsed_success p sv hsv,
    ServiceGroups_parsed_success p sgv hsg, tagEntryLoop_eq,
    tagMatchStep_eq_of_dev p devicegroup _ _ _ mutResp hdev, firstTagCategory]
  by_cases h1 : object ∈ adv.Addresses.map Address.Name <;>
    by_cases h2 : object ∈ agv.Groups.map xmlAddressGroup.Name <;>
      by_cases h3 : object ∈ sv.Services.map Service.Name <;>
        by_cases h4 : object ∈ sgv.Groups.map ServiceGroup.Name <;>
          (simp only [List.mem_map] at h1 h2 h3 h4;
           simp [h1, h2, h3, h4, xmlAddressGroup.process])

/-- Witness for C6: an object present both among the addresses and the
services resolves to the address category. -/
theorem ApplyTag_first_category_wins_witness :
    pStandalone.ApplyTag "vm" "web" [] (.parsed ⟨"success", "19", [⟨"web", "10.0.0.5/32", "", "", ""⟩]⟩)
        (.parsed ⟨"success", "19", []⟩) (.parsed ⟨"success", "19", [⟨"web"⟩]⟩)
        (.parsed ⟨"success", "19", []⟩) (.envelope "success" "20") =
      match firstTagCategory "web" ["web"] [] ["web"] [] with
      | some cat =>
        .done [tagMutationRequest pStandalone (applyTagQuery pStandalone "vm")
            (applyTagXpathPanos cat "web") (applyTagXpathPanorama cat "" "web")]
          (checkSend (.envelope "success" "20"))
      | none => .done [] none :=
  ApplyTag_first_category_wins pStandalone "vm" "web" []
    ⟨"success", "19", [⟨"web", "10.0.0.5/32", "", "", ""⟩]⟩ ⟨"success", "19", []⟩
    ⟨"success", "19", [⟨"web"⟩]⟩ ⟨"success", "19", []⟩ (.envelope "success" "20")
    rfl rfl rfl rfl (Or.inl rfl)

/-- C8: when the object's name appears in none of the four successful
listings, `ApplyTag` and `RemoveTag` both return nil without sending any
mutation request — for every session, a Panorama session with no
device-group argument included. -/
theorem tag_ops_unknown_object_return_nil
    (p : PaloAlto) (tag object : String) (devicegroup : List String)
    (adv : AddressObjects) (agv : xmlAddressGroups) (sv : Services) (sgv : ServiceGroups)
    (mutResp : SendResp)
    (had : adv.Status = "success") (hag : agv.Status = "success")
    (hsv : sv.Status = "success") (hsg : sgv.Status = "success")
    (h1 : object ∉ adv.Addresses.map Address.Name)
    (h2 : object ∉ agv.Groups.map xmlAddressGroup.Name)
    (h3 : object ∉ sv.Services.map Service.Name)
    (h4 : object ∉ sgv.Groups.map ServiceGroup.Name) :
    p.ApplyTag tag object devicegroup (.parsed adv) (.parsed agv) (.parsed sv) (.parsed sgv)
        mutResp = .done [] none
    ∧ p.RemoveTag tag object devicegroup (.parsed adv) (.parsed agv) (.parsed sv) (.parsed sgv)
        mutResp = .done [] none := by
  have h1' := h1
  have h2' := h2
  have h3' := h3
  have h4' := h4
  simp only [List.mem_map] at h1' h2' h3' h4'
  constructor <;>
    simp [PaloAlto.ApplyTag, PaloAlto.RemoveTag, Addresses_parsed_success p adv had,
      AddressGroups_parsed_success p agv hag, Services_parsed_success p sv hsv,
      ServiceGroups_parsed_success p sgv hsg, tagEntryLoop_eq, h1', h2', h3', h4',
      xmlAddressGroup.process]

/-- Witness for C8 at a Panorama session with no device-group argument and
listings that do not contain the object. -/
theorem tag_ops_unknown_object_return_nil_witness :
    pPanorama.ApplyTag "vm" "ghost" [] (.parsed ⟨"success", "19", [⟨"web", "10.0.0.5/32", "", "", ""⟩]⟩)
        (.parsed ⟨"success", "19", []⟩) (.parsed ⟨"success", "19", []⟩)
        (.parsed ⟨"success", "19", []⟩) (.envelope "success" "20") = .done [] none
    ∧ pPanorama.RemoveTag "vm" "ghost" [] (.parsed ⟨"success", "19", [⟨"web", "10.0.0.5/32", "", "", ""⟩]⟩)
        (.parsed ⟨"success", "19", []⟩) (.parsed ⟨"success", "19", []⟩)
        (.parsed ⟨"success", "19", []⟩) (.envelope "success" "20") = .done [] none :=
  tag_ops_unknown_object_return_nil pPanorama "vm" "ghost" []
    ⟨"success", "19", [⟨"web", "10.0.0.5/32", "", "", ""⟩]⟩ ⟨"success", "19", []⟩
    ⟨"success", "19", []⟩ ⟨"success", "19", []⟩ (.envelope "success" "20")
    rfl rfl rfl rfl (by decide) (by decide) (by decide) (by decide)

/-! ### C7, C10: the discarded listing errors and the nil dereference -/

theorem ApplyTag_addresses_error (p : PaloAlto) (tag object : String)
    (devicegroup : List String) (adResp : Unmarshalled AddressObjects)
    (agResp : Unmarshalled xmlAddressGroups) (sResp : Unmarshalled Panos.Services)
    (sgResp : Unmarshalled Panos.ServiceGroups) (mutResp : SendResp) (e : GoErr)
    (h : p.Addresses [] adResp = .error e) :
    p.ApplyTag tag object devicegroup adResp agResp sResp sgResp mutResp = .nilPanic := by
  simp [PaloAlto.ApplyTag, h]

theorem RemoveTag_addresses_error (p : PaloAlto) (tag object : String)
    (devicegroup : List String) (adResp : Unmarshalled AddressObjects)
    (agResp : Unmarshalled xmlAddressGroups) (sResp : Unmarshalled Panos.Services)
    (sgResp : Unmarshalled Panos.ServiceGroups) (mutResp : SendResp) (e : GoErr)
    (h : p.Addresses [] adResp = .error e) :
    p.RemoveTag tag object devicegroup adResp agResp sResp sgResp mutResp = .nilPanic := by
  simp [PaloAlto.RemoveTag, h]

theorem ApplyTag_addressGroups_error (p : PaloAlto) (tag object : String)
    (devicegroup : List String) (adv : AddressObjects)
    (agResp : Unmarshalled xmlAddressGroups) (sResp : Unmarshalled Panos.Services)
    (sgResp : Unmarshalled Panos.ServiceGroups) (mutResp : SendResp) (e : GoErr)
    (had : adv.Status = "success") (h1 : object ∉ adv.Addresses.map Address.Name)
    (hge : p.AddressGroups [] agResp = .error e) :
    p.ApplyTag tag object devicegroup (.parsed adv) agResp sResp sgResp mutResp = .nilPanic := by
  have h1' := h1
  simp only [List.mem_map] at h1'
  simp [PaloAlto.ApplyTag, Addresses_parsed_success p adv had, tagEntryLoop_eq, h1', hge]

theorem RemoveTag_addressGroups_error (p : PaloAlto) (tag object : String)
    (devicegroup : List String) (adv : AddressObjects)
    (agResp : Unmarshalled xmlAddressGroups) (sResp : Unmarshalled Panos.Services)
    (sgResp : Unmarshalled Panos.ServiceGroups) (mutResp : SendResp) (e : GoErr)
    (had : adv.Status = "success") (h1 : object ∉ adv.Addresses.map Address.Name)
    (hge : p.AddressGroups [] agResp = .error e) :
    p.RemoveTag tag object devicegroup (.parsed adv) agResp sResp sgResp mutResp = .nilPanic := by
  have h1' := h1
  simp only [List.mem_map] at h1'
  simp [PaloAlto.RemoveTag, Addresses_parsed_success p adv had, tagEntryLoop_eq, h1', hge]

theorem ifStep_ne_nilPanic (p : PaloAlto) (dg : List String) (px py : String)
    (q : List (String × String)) (r : SendResp) {c : Prop} [Decidable c] {t : TagResult}
    (h : (if c then tagMatchStep p dg px py q r else none) = some t) : t ≠ .nilPanic := by
  by_cases hc : c
  · rw [if_pos hc] at h
    intro ht
    rw [ht] at h
    exact tagMatchStep_ne_nilPanic p dg px py q r h
  · rw [if_neg hc] at h
    exact absurd h (by simp)

theorem ApplyTag_ok_no_panic (p : PaloAlto) (tag object : String)
    (devicegroup : List String) (adv : AddressObjects) (agv : xmlAddressGroups)
    (sv : Services) (sgv : ServiceGroups) (mutResp : SendResp)
    (had : adv.Status = "success") (hag : agv.Status = "success")
    (hsv : sv.Status = "success") (hsg : sgv.Status = "success") :
    p.ApplyTag tag object devicegroup (.parsed adv) (.parsed agv) (.parsed sv) (.parsed sgv)
      mutResp ≠ .nilPanic := by
  simp only [PaloAlto.ApplyTag, Addresses_parsed_success p adv had,
    AddressGroups_parsed_success p agv hag, Services_parsed_success p sv hsv,
    ServiceGroups_parsed_success p sgv hsg, tagEntryLoop_eq]
  split
  · exact ifStep_ne_nilPanic _ _ _ _ _ _ (by assumption)
  · split
    · exact ifStep_ne_nilPanic _ _ _ _ _ _ (by assumption)
    · split
      · exact ifStep_ne_nilPanic _ _ _ _ _ _ (by assumption)
      · split
        · exact ifStep_ne_nilPanic _ _ _ _ _ _ (by assumption)
        · simp

theorem RemoveTag_ok_no_panic (p : PaloAlto) (tag object : String)
    (devicegroup : List String) (adv : AddressObjects) (agv : xmlAddressGroups)
    (sv : Services) (sgv : ServiceGroups) (mutResp : SendResp)
    (had : adv.Status = "success") (hag : agv.Status = "success")
    (hsv : sv.Status = "success") (hsg : sgv.Status = "success") :
    p.RemoveTag tag object devicegroup (.parsed adv) (.parsed agv) (.parsed sv) (.parsed sgv)
      mutResp ≠ .nilPanic := by
  simp only [PaloAlto.RemoveTag, Addresses_parsed_success p adv had,
    AddressGroups_parsed_success p agv hag, Services_parsed_success p sv hsv,
    ServiceGroups_parsed_success p sgv hsg, tagEntryLoop_eq]
  split
  · exact ifStep_ne_nilPanic _ _ _ _ _ _ (by assumption)
  · split
    · exact ifStep_ne_nilPanic _ _ _ _ _ _ (by assumption)
    · split
      · exact ifStep_ne_nilPanic _ _ _ _ _ _ (by assumption)
      · split
        · exact ifStep_ne_nilPanic _ _ _ _ _ _ (by assumption)
        · simp

/-- Counterexample for C7: the addresses listing of `ApplyTag` fails with a
parse error, yet `ApplyTag` does not return that (or any) error to the
caller — the discarded error leaves a nil pointer and the call ends in the
nil dereference, not in an error return. -/
theorem listing_error_not_propagated :
    pStandalone.Addresses [] (.unmarshalErr "EOF") = .error (.parse "EOF")
    ∧ pStandalone.ApplyTag "vm" "web" [] (.unmarshalErr "EOF")
        (.parsed ⟨"success", "19", []⟩) (.parsed ⟨"success", "19", []⟩)
        (.parsed ⟨"success", "19", []⟩) (.envelope "success" "20") = .nilPanic :=
  ⟨rfl, rfl⟩

/-- C7 amended: errors an operation's own request handling detects
(transport, unmarshal, non-success status) are returned to the immediate
caller with no retry; but the errors of the listing calls at the start of
`ApplyTag` and `RemoveTag` are discarded — a failed addresses listing is
not propagated, the functions fault on the nil result instead. -/
theorem error_propagation_amended :
    (∀ (p : PaloAlto) (e : String), (p.Commit (.transportErr e)).2 = some (.transport e))
    ∧ (∀ (p : PaloAlto) (e : String), (p.Commit (.unmarshalErr e)).2 = some (.parse e))
    ∧ (∀ (p : PaloAlto) (name : String) (devicegroup : List String) (e : String),
        ¬(p.DeviceType = "panorama" ∧ devicegroup.length ≤ 0) →
        (p.DeleteAddress name devicegroup (.transportErr e)).2 = some (.transport e))
    ∧ (∀ (p : PaloAlto) (tag object : String) (devicegroup : List String)
          (adResp : Unmarshalled AddressObjects) (agResp : Unmarshalled xmlAddressGroups)
          (sResp : Unmarshalled Panos.Services) (sgResp : Unmarshalled Panos.ServiceGroups)
          (mutResp : SendResp) (e : GoErr),
        p.Addresses [] adResp = .error e →
        p.ApplyTag tag object devicegroup adResp agResp sResp sgResp mutResp = .nilPanic
        ∧ p.RemoveTag tag object devicegroup adResp agResp sResp sgResp mutResp = .nilPanic) := by
  refine ⟨fun p e => rfl, fun p e => rfl, ?_, ?_⟩
  · intro p name devicegroup e h
    have h' : ¬(p.DeviceType = "panorama" ∧ devicegroup = []) := by
      simpa [List.length_eq_zero] using h
    simp [PaloAlto.DeleteAddress, h', checkSend]
  · intro p tag object devicegroup adResp agResp sResp sgResp mutResp e h
    exact ⟨ApplyTag_addresses_error p tag object devicegroup adResp agResp sResp sgResp mutResp e h,
      RemoveTag_addresses_error p tag object devicegroup adResp agResp sResp sgResp mutResp e h⟩

/-- Witness for the amended C7 at concrete inputs. -/
theorem error_propagation_amended_witness :
    (pStandalone.DeleteAddress "srv1" [] (.transportErr "connection refused")).2 =
        some (.transport "connection refused")
    ∧ pStandalone.ApplyTag "vm" "web" [] (.unmarshalErr "EOF")
        (.parsed ⟨"success", "19", []⟩) (.parsed ⟨"success", "19", []⟩)
        (.parsed ⟨"success", "19", []⟩) (.envelope "success" "20") = .nilPanic :=
  ⟨error_propagation_amended.2.2.1 pStandalone "srv1" [] "connection refused" (by decide),
   (error_propagation_amended.2.2.2 pStandalone "vm" "web" [] (.unmarshalErr "EOF")
      (.parsed ⟨"success", "19", []⟩) (.parsed ⟨"success", "19", []⟩)
      (.parsed ⟨"success", "19", []⟩) (.envelope "success" "20") (.parse "EOF") rfl).1⟩

/-- Counterexample for C10: the services listing fails, yet `ApplyTag` does
not panic — the object already matched in the addresses loop, so the nil
service listing is never dereferenced and the call completes with its
mutation sent and no error. -/
theorem failed_listing_without_panic :
    pStandalone.Services (.unmarshalErr "EOF") = .error (.parse "EOF")
    ∧ pStandalone.ApplyTag "vm" "web" []
        (.parsed ⟨"success", "19", [⟨"web", "10.0.0.5/32", "", "", ""⟩]⟩)
        (.parsed ⟨"success", "19", []⟩) (.unmarshalErr "EOF")
        (.parsed ⟨"success", "19", []⟩) (.envelope "success" "20") =
      .done [⟨"post", pStandalone.URI,
          applyTagQuery pStandalone "vm" ++ [("xpath", applyTagXpathPanos .address "web")]⟩]
        none :=
  ⟨rfl, rfl⟩

/-- C10 amended: a failed listing faults only when its loop is reached — a
failed addresses listing always leaves `ApplyTag` and `RemoveTag` in the
nil dereference; a failed address-groups listing does so when no address
matched; and when all four listings succeed, both complete without a
nil-pointer fault. -/
theorem tag_ops_nil_deref_amended :
    (∀ (p : PaloAlto) (tag object : String) (devicegroup : List String)
        (adResp : Unmarshalled AddressObjects) (agResp : Unmarshalled xmlAddressGroups)
        (sResp : Unmarshalled Panos.Services) (sgResp : Unmarshalled Panos.ServiceGroups)
        (mutResp : SendResp) (e : GoErr),
      p.Addresses [] adResp = .error e →
      p.ApplyTag tag object devicegroup adResp agResp sResp sgResp mutResp = .nilPanic
      ∧ p.RemoveTag tag object devicegroup adResp agResp sResp sgResp mutResp = .nilPanic)
    ∧ (∀ (p : PaloAlto) (tag object : String) (devicegroup : List String)
        (adv : AddressObjects) (agResp : Unmarshalled xmlAddressGroups)
        (sResp : Unmarshalled Panos.Services) (sgResp : Unmarshalled Panos.ServiceGroups)
        (mutResp : SendResp) (e : GoErr),
      adv.Status = "success" → object ∉ adv.Addresses.map Address.Name →
      p.AddressGroups [] agResp = .error e →
      p.ApplyTag tag object devicegroup (.parsed adv) agResp sResp sgResp mutResp = .nilPanic
      ∧ p.RemoveTag tag object devicegroup (.parsed adv) agResp sResp sgResp mutResp = .nilPanic)
    ∧ (∀ (p : PaloAlto) (tag object : String) (devicegroup : List String)
        (adv : AddressObjects) (agv : xmlAddressGroups) (sv : Services) (sgv : ServiceGroups)
        (mutResp : SendResp),
      adv.Status = "success" → agv.Status = "success" → sv.Status = "success" →
      sgv.Status = "success" →
      p.ApplyTag tag object devicegroup (.parsed adv) (.parsed agv) (.parsed sv) (.parsed sgv)
          mutResp ≠ .nilPanic
      ∧ p.RemoveTag tag object devicegroup (.parsed adv) (.parsed agv) (.parsed sv) (.parsed sgv)
          mutResp ≠ .nilPanic) := by
  refine ⟨?_, ?_, ?_⟩
  · intro p tag object devicegroup adResp agResp sResp sgResp mutResp e h
    exact ⟨ApplyTag_addresses_error p tag object devicegroup adResp agResp sResp sgResp mutResp e h,
      RemoveTag_addresses_error p tag object devicegroup adResp agResp sResp sgResp mutResp e h⟩
  · intro p tag object devicegroup adv agResp sResp sgResp mutResp e had h1 hge
    exact ⟨ApplyTag_addressGroups_error p tag object devicegroup adv agResp sResp sgResp mutResp e had h1 hge,
      RemoveTag_addressGroups_error p tag object devicegroup adv agResp sResp sgResp mutResp e had h1 hge⟩
  · intro p tag object devicegroup adv agv sv sgv mutResp had hag hsv hsg
    exact ⟨ApplyTag_ok_no_panic p tag object devicegroup adv agv sv sgv mutResp had hag hsv hsg,
      RemoveTag_ok_no_panic p tag object devicegroup adv agv sv sgv mutResp had hag hsv hsg⟩

/-- Witness for the amended C10 at concrete inputs. -/
theorem tag_ops_nil_deref_amended_witness :
    (pStandalone.ApplyTag "vm" "web" [] (.unmarshalErr "EOF")
        (.parsed ⟨"success", "19", []⟩) (.parsed ⟨"success", "19", []⟩)
        (.parsed ⟨"success", "19", []⟩) (.envelope "success" "20") = .nilPanic
      ∧ pStandalone.RemoveTag "vm" "web" [] (.unmarshalErr "EOF")
        (.parsed ⟨"success", "19", []⟩) (.parsed ⟨"success", "19", []⟩)
        (.parsed ⟨"success", "19", []⟩) (.envelope "success" "20") = .nilPanic)
    ∧ (pStandalone.ApplyTag "vm" "web" []
        (.parsed ⟨"success", "19", [⟨"web", "10.0.0.5/32", "", "", ""⟩]⟩)
        (.parsed ⟨"success", "19", []⟩) (.parsed ⟨"success", "19", []⟩)
        (.parsed ⟨"success", "19", []⟩) (.envelope "success" "20") ≠ .nilPanic) :=
  ⟨tag_ops_nil_deref_amended.1 pStandalone "vm" "web" [] (.unmarshalErr "EOF")
      (.parsed ⟨"success", "19", []⟩) (.parsed ⟨"success", "19", []⟩)
      (.parsed ⟨"success", "19", []⟩) (.envelope "success" "20") (.parse "EOF") rfl,
   (tag_ops_nil_deref_amended.2.2 pStandalone "vm" "web" []
      ⟨"success", "19", [⟨"web", "10.0.0.5/32", "", "", ""⟩]⟩ ⟨"success", "19", []⟩
      ⟨"success", "19", []⟩ ⟨"success", "19", []⟩ (.envelope "success" "20")
      rfl rfl rfl rfl).1⟩

end Panos
